import Mathlib

/-!
Shallow embedding of the x402-style payment gate of `elizabao-claw`.

The embedded code:
* `src/x402-solana.ts` — `verifySolPayment`, `usdToLamports`;
* `src/x402-agentinc.ts` (second document of `src/moltbook-comments.ts`) —
  `extractPaymentFromHeaders`, `settleAndVerifyPayment`, `buildAccepts`,
  `create402Body`;
* `src/server.ts` (second document of `src/unnamed/part_005`) — the
  `/signals/daily` and `/signals/polymarket/top` Hono handlers.

External effects (the Solana RPC connection, base64/JSON codecs, the vendor
`SolPaymentPayloadSchema`) are modelled as explicit environment functions, so
each embedded function is a pure function of its inputs and of the ledger
state it observes.
-/

/-- One instruction of a parsed Solana transaction, as seen through
`getParsedTransaction`: `ix.program`, `ix.parsed.type`,
`ix.parsed.info.destination`, `ix.parsed.info.lamports`. -/
structure ParsedInstruction where
  program : String
  optype : String
  destination : String
  lamports : Nat
deriving DecidableEq, Repr

/-- A parsed transaction: `meta.err` truthiness, the instruction list of
`transaction.message.instructions`, and `transaction.message.accountKeys`
(base58 pubkeys; index 0 is the fee payer, i.e. the first signer). -/
structure ParsedTransaction where
  err : Bool
  instructions : List ParsedInstruction
  accountKeys : List String
deriving DecidableEq, Repr

/-- The external world the payment code talks to.
`ledger` is `connection.getParsedTransaction · (commitment: "confirmed")`
(`none` = transaction not found at confirmed commitment);
`sendRaw` is `connection.sendRawTransaction` (`none` = the call threw);
`deserializeFirstSig` is `bs58.encode(VersionedTransaction.deserialize(raw).signatures[0])`
(`none` = deserialization threw, or the first signature was missing/empty);
`decodeBase64` is `Buffer.from(s, "base64")`;
`validPubkey` tells whether `new PublicKey(s)` succeeds, and `toBase58` is
`new PublicKey(s).toBase58()`. -/
structure Chain where
  ledger : String → Option ParsedTransaction
  sendRaw : List Nat → Option String
  deserializeFirstSig : List Nat → Option String
  decodeBase64 : String → List Nat
  validPubkey : String → Bool
  toBase58 : String → String

/-- JavaScript `String.prototype.trim` (strip leading and trailing
whitespace), modelled executably over the character list. -/
def jsTrim (s : String) : String :=
  ⟨((s.data.dropWhile Char.isWhitespace).reverse.dropWhile
      Char.isWhitespace).reverse⟩

/-- Does an instruction qualify as a payment to `treasury`?
Mirrors the loop guard of `settleAndVerifyPayment`:
`program === "system" && parsed.type === "transfer" && info.destination === treasury`. -/
def qualifies (ix : ParsedInstruction) (treasury : String) : Bool :=
  ix.program == "system" && ix.optype == "transfer" && ix.destination == treasury

/-- The `paid` accumulation loop of `settleAndVerifyPayment`
(src/x402-agentinc.ts lines 229–237): sum `lamports` over qualifying
instructions. -/
def paidSum (ixs : List ParsedInstruction) (treasury : String) : Nat :=
  ixs.foldl (fun acc ix => if qualifies ix treasury then acc + ix.lamports else acc) 0

/-- The `paidLamports` accumulation loop of `verifySolPayment`
(src/x402-solana.ts lines 64–77).  It additionally skips instructions whose
destination string is empty (`if (!dest || !Number.isFinite(lamports)) continue`;
the finiteness guard is vacuous here because lamports are naturals). -/
def verifyPaidSum (ixs : List ParsedInstruction) (treasury : String) : Nat :=
  ixs.foldl
    (fun acc ix =>
      if ix.destination ≠ "" && qualifies ix treasury then acc + ix.lamports else acc)
    0

/-- `PaymentCheckResult` of src/x402-solana.ts:
`{ ok: true; txSig; paidLamports; paidTo } | { ok: false; reason }`. -/
inductive PaymentCheckResult where
  | ok (txSig : String) (paidLamports : Nat) (paidTo : String)
  | fail (reason : String)
deriving DecidableEq, Repr

/-- `verifySolPayment` (src/x402-solana.ts lines 38–92): trim the signature,
parse the treasury address, fetch the parsed transaction at confirmed
commitment, sum qualifying system transfers to the treasury, and compare
against `requiredLamports`. -/
def verifySolPayment (env : Chain) (treasuryAddress txSignature : String)
    (requiredLamports : Nat) : PaymentCheckResult :=
  let txSig := jsTrim txSignature
  if txSig = "" then .fail "missing tx signature"
  else if !env.validPubkey treasuryAddress then .fail "invalid treasury address"
  else
    let treasury := env.toBase58 treasuryAddress
    match env.ledger txSig with
    | none => .fail "transaction not found (yet)"
    | some tx =>
      if tx.err then .fail "transaction failed"
      else
        let paidLamports := verifyPaidSum tx.instructions treasury
        if paidLamports < requiredLamports then
          .fail ("insufficient payment: paid " ++ toString paidLamports ++
            " lamports, require " ++ toString requiredLamports)
        else .ok txSig paidLamports treasury

/-- `VerifyResult` of src/x402-agentinc.ts:
`{ ok: true; signature; payer?; paidLamports } | { ok: false; reason }`. -/
inductive VerifyResult where
  | ok (signature : String) (payer : Option String) (paidLamports : Nat)
  | fail (reason : String)
deriving DecidableEq, Repr

/-- The confirm-and-inspect tail of `settleAndVerifyPayment`
(src/x402-agentinc.ts lines 220–244), shared by both proof forms once a
transaction reference is in hand: fetch at confirmed commitment, reject on
not-found or on a ledger execution error, then sum qualifying transfers and
compare against the required amount.  The payer is `accountKeys[0]`, the
transaction's first signer. -/
def confirmAndCheck (env : Chain) (sig : String) (requiredLamports : Nat)
    (treasuryAddress : String) : VerifyResult :=
  match env.ledger sig with
  | none => .fail "transaction not found/confirmed yet"
  | some parsed =>
    if parsed.err then .fail "transaction failed"
    else
      let paid := paidSum parsed.instructions treasuryAddress
      if paid < requiredLamports then
        .fail ("insufficient payment: paid=" ++ toString paid ++
          " require=" ++ toString requiredLamports)
      else .ok sig parsed.accountKeys.head? paid

/-- `settleAndVerifyPayment` (src/x402-agentinc.ts lines 190–245): decode the
blob, optimistically submit it; if submission throws, recover the reference by
deserializing the blob and reading its first signature; then confirm and
inspect. -/
def settleAndVerifyPayment (env : Chain) (signedTxBase64 : String)
    (requiredLamports : Nat) (treasuryAddress : String) : VerifyResult :=
  let raw := env.decodeBase64 signedTxBase64
  if raw.length = 0 then .fail "empty transaction"
  else
    let sig? := match env.sendRaw raw with
      | some s => some s
      | none => env.deserializeFirstSig raw
    match sig? with
    | none => .fail "could not determine tx signature"
    | some sig => confirmAndCheck env sig requiredLamports treasuryAddress

/-- `usdToLamports` (src/x402-solana.ts lines 116–120):
`Math.max(1, Math.ceil((usd / solUsd) * 1_000_000_000))`, over exact
rationals. -/
def usdToLamports (usd solUsd : ℚ) : ℤ :=
  let sol : ℚ := usd / solUsd
  let lamports : ℤ := ⌈sol * 1000000000⌉
  max 1 lamports

/-- JavaScript `a || b` on a nullable string `a`: the empty string is falsy,
`null` (here `none`) is falsy. -/
def jsOrStr (a : Option String) (b : String) : String :=
  match a with
  | none => b
  | some s => if s = "" then b else s

/-- Outcome of `decodeBase64Json` + `SolPaymentPayloadSchema.safeParse` on a
header value.  The vendor schema lives in a git submodule
(`vendor/agentinc/lib/x402/validation`), so it is kept abstract:
`valid tx` = decodes and schema-validates, with `payload.transaction = tx`;
`invalid` = decodes but fails schema validation;
`throwsWith m` = base64/JSON decoding throws an exception with message `m`. -/
inductive PayloadParse where
  | valid (txBase64 : String)
  | invalid
  | throwsWith (msg : String)
deriving DecidableEq, Repr

/-- `ParsedPayment` of src/x402-agentinc.ts:
`{ ok: true; txBase64 } | { ok: false; reason }`. -/
inductive ParsedPayment where
  | ok (txBase64 : String)
  | fail (reason : String)
deriving DecidableEq, Repr

/-- The `try { ... } catch` body of `extractPaymentFromHeaders` applied to a
non-empty raw header value (src/x402-agentinc.ts lines 169–178). -/
def parseRaw (pp : String → PayloadParse) (raw : String) : ParsedPayment :=
  match pp raw with
  | .valid tx => .ok tx
  | .invalid => .fail "invalid payment payload"
  | .throwsWith m => .fail (if m = "" then "bad X-PAYMENT encoding" else m)

/-- The request headers the payment gate reads.  `none` = header absent
(`Headers.get` returns `null`).  Hono's `c.req.header` is case-insensitive,
so the server's two lookups `header("x-payment-tx") || header("X-Payment-Tx")`
read the single `xPaymentTx` field. -/
structure ReqHeaders where
  xPaymentTx : Option String
  xPayment : Option String
  paymentSignature : Option String
deriving DecidableEq, Repr

/-- `extractPaymentFromHeaders` (src/x402-agentinc.ts lines 166–179):
`const raw = headers.get("X-PAYMENT") || headers.get("PAYMENT-SIGNATURE") || "";
if (!raw) return { ok: false, reason: "missing X-PAYMENT header" }; ...`. -/
def extractPaymentFromHeaders (pp : String → PayloadParse) (h : ReqHeaders) :
    ParsedPayment :=
  let raw := jsOrStr h.xPayment (jsOrStr h.paymentSignature "")
  if raw = "" then .fail "missing X-PAYMENT header"
  else parseRaw pp raw

/-- `X402Accepts` (src/x402-agentinc.ts lines 72–85, built by `buildAccepts`).
The `extra.usdAmount` string formatting (`toFixed(4)`) is kept as the raw
rational. -/
structure X402Accepts where
  scheme : String
  network : String
  maxAmountRequired : String
  asset : String
  payTo : String
  resource : String
  description : String
  maxTimeoutSeconds : Nat
  extraUsdAmount : Option ℚ
  extraSolPrice : Option ℚ
deriving DecidableEq, Repr

/-- `buildAccepts` (src/x402-agentinc.ts lines 114–138). `network` and
`payTo` come from the vendor config (`getX402Network`,
`getX402TreasuryAddress`), passed here explicitly. -/
def buildAccepts (network payTo : String) (lamports : Nat)
    (resource description : String) (usdAmount solPrice : Option ℚ) :
    X402Accepts :=
  { scheme := "exact"
    network := network
    maxAmountRequired := toString lamports
    asset := "native"
    payTo := payTo
    resource := resource
    description := description
    maxTimeoutSeconds := 300
    extraUsdAmount := usdAmount
    extraSolPrice := solPrice }

/-- The JSON body of a 402 response, `create402Body`’s result shape. -/
structure Body402 where
  x402Version : Nat
  error : String
  accepts : List X402Accepts
deriving DecidableEq, Repr

/-- `create402Body` (src/x402-agentinc.ts lines 140–146):
`{ x402Version: 1, error: args.error ?? "Payment required", accepts: [args.accepts] }`. -/
def create402Body (accepts : X402Accepts) (error? : Option String) : Body402 :=
  { x402Version := 1
    error := error?.getD "Payment required"
    accepts := [accepts] }

/-- The server configuration visible to the handlers: `X402_DEV_BYPASS`,
`getX402TreasuryAddress()` (empty = unset), `X402_PRICE_USD`, the result of
`fetchSolUsdPrice().catch(() => null)`, and `getX402Network()`. -/
structure ServerCfg where
  bypass : Bool
  treasury : String
  priceUsd : ℚ
  solUsd? : Option ℚ
  network : String
deriving Repr

/-- The observable response of the `/signals/daily` handler
(src/server.ts lines 300–404). -/
inductive DailyResponse where
  /-- 200 `{ ok: true, paid: false, bypass: true, signal }` -/
  | bypassOk
  /-- 500 `{ ok: false, error: "server not configured", ... }` -/
  | notConfigured
  /-- 502 `{ ok: false, error: "pricing unavailable", ... }` -/
  | pricingUnavailable
  /-- 402 with `body` and header `X-Payment-Required: base64(JSON(body))` -/
  | paymentRequired (body : Body402)
  /-- 200 `{ ok: true, paid: true, payment: {...}, signal }` -/
  | paidOk (transaction : String) (paidLamports : Nat) (payer : Option String)
      (flow : Option String)
deriving DecidableEq, Repr

/-- HTTP status of a `/signals/daily` response. -/
def DailyResponse.status : DailyResponse → Nat
  | .bypassOk => 200
  | .notConfigured => 500
  | .pricingUnavailable => 502
  | .paymentRequired _ => 402
  | .paidOk _ _ _ _ => 200

/-- The `paid` field of the response body, when present. -/
def DailyResponse.paidFlag : DailyResponse → Option Bool
  | .bypassOk => some false
  | .paidOk _ _ _ _ => some true
  | _ => none

/-- The `error` field of a 402 body, when the response is a 402. -/
def DailyResponse.errorField : DailyResponse → Option String
  | .paymentRequired b => some b.error
  | _ => none

/-- The `accepts` list of a 402 body, when the response is a 402. -/
def DailyResponse.acceptsField : DailyResponse → Option (List X402Accepts)
  | .paymentRequired b => some b.accepts
  | _ => none

/-- The `/signals/daily` handler (src/server.ts lines 300–404): dev bypass,
configuration and pricing guards, then the manual `X-Payment-Tx` reference
path, and only if that header is absent/blank the structured `X-PAYMENT`
path (`extractPaymentFromHeaders` + `settleAndVerifyPayment`). -/
def signalsDaily (cfg : ServerCfg) (env : Chain) (pp : String → PayloadParse)
    (h : ReqHeaders) (reqUrl : String) : DailyResponse :=
  if cfg.bypass then .bypassOk
  else if cfg.treasury = "" then .notConfigured
  else
    match cfg.solUsd? with
    | none => .pricingUnavailable
    | some solUsd =>
      let requiredLamports := (usdToLamports cfg.priceUsd solUsd).toNat
      let accepts := buildAccepts cfg.network cfg.treasury requiredLamports
        reqUrl "Unlock daily signal" (some cfg.priceUsd) (some solUsd)
      let paymentTx := jsTrim (jsOrStr h.xPaymentTx "")
      if paymentTx ≠ "" then
        match verifySolPayment env cfg.treasury paymentTx requiredLamports with
        | .fail reason => .paymentRequired (create402Body accepts (some reason))
        | .ok sig paid _ => .paidOk sig paid none (some "txSig")
      else
        match extractPaymentFromHeaders pp h with
        | .fail _ => .paymentRequired (create402Body accepts none)
        | .ok txB64 =>
          match settleAndVerifyPayment env txB64 requiredLamports cfg.treasury with
          | .fail reason => .paymentRequired (create402Body accepts (some reason))
          | .ok sig payer paid => .paidOk sig paid payer none

/-- The observable response of the `/signals/polymarket/top` handler
(src/server.ts lines 417–530).  `okSignals paid` is the final 200 body,
whose `paid` field is `!cfg.X402_DEV_BYPASS`; the signal-ranking content is
out of scope. -/
inductive TopResponse where
  | notConfigured
  | pricingUnavailable
  | paymentRequired (body : Body402)
  | okSignals (paid : Bool)
deriving DecidableEq, Repr

/-- HTTP status of a `/signals/polymarket/top` response. -/
def TopResponse.status : TopResponse → Nat
  | .notConfigured => 500
  | .pricingUnavailable => 502
  | .paymentRequired _ => 402
  | .okSignals _ => 200

/-- The `paid` field of the response body, when present. -/
def TopResponse.paidFlag : TopResponse → Option Bool
  | .okSignals p => some p
  | _ => none

/-- The `error` field of a 402 body, when the response is a 402. -/
def TopResponse.errorField : TopResponse → Option String
  | .paymentRequired b => some b.error
  | _ => none

/-- The `/signals/polymarket/top` handler (src/server.ts lines 417–530): the
whole payment section is skipped in bypass mode; otherwise it mirrors
`/signals/daily`, and on verification success falls through to the signal
computation with `paid: !cfg.X402_DEV_BYPASS`. -/
def signalsPolymarketTop (cfg : ServerCfg) (env : Chain)
    (pp : String → PayloadParse) (h : ReqHeaders) (reqUrl : String) :
    TopResponse :=
  if !cfg.bypass then
    if cfg.treasury = "" then .notConfigured
    else
      match cfg.solUsd? with
      | none => .pricingUnavailable
      | some solUsd =>
        let requiredLamports := (usdToLamports cfg.priceUsd solUsd).toNat
        let accepts := buildAccepts cfg.network cfg.treasury requiredLamports
          reqUrl "Unlock Polymarket top signals" (some cfg.priceUsd) (some solUsd)
        let paymentTx := jsTrim (jsOrStr h.xPaymentTx "")
        if paymentTx ≠ "" then
          match verifySolPayment env cfg.treasury paymentTx requiredLamports with
          | .fail reason => .paymentRequired (create402Body accepts (some reason))
          | .ok _ _ _ => .okSignals (!cfg.bypass)
        else
          match extractPaymentFromHeaders pp h with
          | .fail _ => .paymentRequired (create402Body accepts none)
          | .ok txB64 =>
            match settleAndVerifyPayment env txB64 requiredLamports cfg.treasury with
            | .fail reason => .paymentRequired (create402Body accepts (some reason))
            | .ok _ _ _ => .okSignals (!cfg.bypass)
  else .okSignals (!cfg.bypass)

/-- The quote the `/signals/daily` handler builds for a denied request. -/
def acceptsDaily (cfg : ServerCfg) (u : String) (r : ℚ) : X402Accepts :=
  buildAccepts cfg.network cfg.treasury (usdToLamports cfg.priceUsd r).toNat
    u "Unlock daily signal" (some cfg.priceUsd) (some r)

/-- The quote the `/signals/polymarket/top` handler builds for a denied
request. -/
def acceptsTop (cfg : ServerCfg) (u : String) (r : ℚ) : X402Accepts :=
  buildAccepts cfg.network cfg.treasury (usdToLamports cfg.priceUsd r).toNat
    u "Unlock Polymarket top signals" (some cfg.priceUsd) (some r)

/-! ## Helper lemmas -/

theorem foldl_guard_add (p : ParsedInstruction → Bool)
    (l : List ParsedInstruction) (a : Nat) :
    l.foldl (fun acc ix => if p ix then acc + ix.lamports else acc) a
      = a + ((l.filter p).map (·.lamports)).sum := by
  induction l generalizing a with
  | nil => simp
  | cons x xs ih =>
    by_cases h : p x
    · simp [List.filter_cons, h, ih, Nat.add_assoc]
    · simp [List.filter_cons, h, ih]

theorem paidSum_eq_filter_sum (ixs : List ParsedInstruction) (t : String) :
    paidSum ixs t = ((ixs.filter (fun ix => qualifies ix t)).map (·.lamports)).sum := by
  unfold paidSum
  simpa using foldl_guard_add (fun ix => qualifies ix t) ixs 0

theorem qualifies_dest (ix : ParsedInstruction) (t : String)
    (h : qualifies ix t = true) : ix.destination = t := by
  unfold qualifies at h
  simp only [Bool.and_eq_true, beq_iff_eq] at h
  exact h.2

theorem verifyPaidSum_eq_paidSum (ixs : List ParsedInstruction) (t : String)
    (ht : t ≠ "") : verifyPaidSum ixs t = paidSum ixs t := by
  unfold verifyPaidSum paidSum
  congr 1
  funext acc ix
  by_cases hq : qualifies ix t
  · have hd : ix.destination ≠ "" := by
      rw [qualifies_dest ix t hq]; exact ht
    simp [hq, hd]
  · simp [hq]

theorem extract_primary (pp : String → PayloadParse) (h : ReqHeaders)
    (v : String) (hx : h.xPayment = some v) (hv : v ≠ "") :
    extractPaymentFromHeaders pp h = parseRaw pp v := by
  unfold extractPaymentFromHeaders jsOrStr
  rw [hx]
  simp [hv]

theorem extract_fallback (pp : String → PayloadParse) (h : ReqHeaders)
    (v : String) (hx : h.xPayment = none) (hs : h.paymentSignature = some v)
    (hv : v ≠ "") :
    extractPaymentFromHeaders pp h = parseRaw pp v := by
  unfold extractPaymentFromHeaders jsOrStr
  rw [hx, hs]
  simp [hv]

theorem extract_missing (pp : String → PayloadParse) (h : ReqHeaders)
    (hx : h.xPayment = none) (hs : h.paymentSignature = none) :
    extractPaymentFromHeaders pp h = .fail "missing X-PAYMENT header" := by
  unfold extractPaymentFromHeaders jsOrStr
  rw [hx, hs]
  simp

theorem insufficient_reason_length (a b : String) :
    ("insufficient payment: paid=" ++ a ++ " require=" ++ b).length
      = 36 + a.length + b.length := by
  rw [String.length_append, String.length_append, String.length_append]
  have h1 : ("insufficient payment: paid=" : String).length = 27 := rfl
  have h2 : (" require=" : String).length = 9 := rfl
  omega

theorem confirmAndCheck_reason_shapes (env : Chain) (sig : String)
    (req : Nat) (t : String) :
    confirmAndCheck env sig req t ≠ .fail "could not determine tx signature" := by
  unfold confirmAndCheck
  cases hl : env.ledger sig with
  | none => simp
  | some parsed =>
    cases herr : parsed.err with
    | true => simp [herr]
    | false =>
      simp only [herr, Bool.false_eq_true, if_false]
      by_cases hp : paidSum parsed.instructions t < req
      · simp only [hp, if_true]
        intro h
        have hlen := congrArg String.length (VerifyResult.fail.inj h)
        rw [insufficient_reason_length] at hlen
        have h3 : ("could not determine tx signature" : String).length = 32 := rfl
        omega
      · simp [hp]

theorem settle_obtains_sig (env : Chain) (blob : String) (req : Nat)
    (t sig : String)
    (hne : (env.decodeBase64 blob).length ≠ 0)
    (hsig : (match env.sendRaw (env.decodeBase64 blob) with
      | some s => some s
      | none => env.deserializeFirstSig (env.decodeBase64 blob)) = some sig) :
    settleAndVerifyPayment env blob req t = confirmAndCheck env sig req t := by
  unfold settleAndVerifyPayment
  simp only [hne, if_false, hsig]

theorem settle_no_sig (env : Chain) (blob : String) (req : Nat) (t : String)
    (hne : (env.decodeBase64 blob).length ≠ 0)
    (hsend : env.sendRaw (env.decodeBase64 blob) = none)
    (hdeser : env.deserializeFirstSig (env.decodeBase64 blob) = none) :
    settleAndVerifyPayment env blob req t
      = .fail "could not determine tx signature" := by
  unfold settleAndVerifyPayment
  simp only [hne, if_false, hsend, hdeser]

/-! ## Concrete fixtures used by witnesses and counterexamples -/

/-- A confirmed, errorless transaction carrying a single qualifying transfer
of 1 000 000 lamports to `"TREAS"`, first signer `"PAYER"`. -/
def txPaid : ParsedTransaction :=
  ⟨false, [⟨"system", "transfer", "TREAS", 1000000⟩], ["PAYER"]⟩

/-- A chain on which `"SIG"` is the landed reference of `txPaid` and raw
submission succeeds, returning `"SIG"`. -/
def chainPaid : Chain :=
  { ledger := fun s => if s = "SIG" then some txPaid else none
    sendRaw := fun _ => some "SIG"
    deserializeFirstSig := fun _ => none
    decodeBase64 := fun _ => [1]
    validPubkey := fun _ => true
    toBase58 := fun s => s }

/-- A chain that knows no transaction and on which submission and
deserialization both fail. -/
def chainEmpty : Chain :=
  { ledger := fun _ => none
    sendRaw := fun _ => none
    deserializeFirstSig := fun _ => none
    decodeBase64 := fun _ => [1]
    validPubkey := fun _ => true
    toBase58 := fun s => s }

/-! ## Claims -/

/-- C4: the paid amount computed by verification equals the sum of `lamports`
over exactly the instructions whose program is `"system"`, whose operation
type is `"transfer"`, and whose destination equals `payTo`; other
instructions contribute nothing, multiple qualifying transfers are all
summed, and zero qualifying instructions yield `paid = 0` rather than an
error.  The guarded loop of `verifySolPayment` computes the same sum whenever
the treasury key is non-empty (base58 keys always are). -/
theorem paid_amount_is_qualifying_sum :
    (∀ (ixs : List ParsedInstruction) (t : String),
        paidSum ixs t
          = ((ixs.filter (fun ix => qualifies ix t)).map (·.lamports)).sum)
    ∧ (∀ (ixs : List ParsedInstruction) (t : String), t ≠ "" →
        verifyPaidSum ixs t = paidSum ixs t)
    ∧ paidSum
        [⟨"system", "transfer", "TREAS", 100⟩,
         ⟨"system", "transfer", "TREAS", 200⟩,
         ⟨"system", "transfer", "OTHER", 50⟩] "TREAS" = 300
    ∧ (∀ t, paidSum [] t = 0) :=
  ⟨paidSum_eq_filter_sum, verifyPaidSum_eq_paidSum, by decide, fun _ => rfl⟩

/-- Witness for C4 at a concrete instruction list and treasury. -/
theorem paid_amount_is_qualifying_sum_witness :
    ("TREAS" : String) ≠ ""
    ∧ verifyPaidSum [⟨"system", "transfer", "TREAS", 100⟩] "TREAS"
        = paidSum [⟨"system", "transfer", "TREAS", 100⟩] "TREAS" :=
  ⟨by decide,
    paid_amount_is_qualifying_sum.2.1
      [⟨"system", "transfer", "TREAS", 100⟩] "TREAS" (by decide)⟩

/-- C5: for every positive USD target `u` and positive rate `r`,
`usdToLamports` returns exactly `⌈(u / r) * 10^9⌉` — the ceiling, never a
rounded-down value — and the result is at least 1. -/
theorem usdToLamports_ceil_ge_one (u r : ℚ) (hu : 0 < u) (hr : 0 < r) :
    usdToLamports u r = ⌈u / r * 1000000000⌉ ∧ 1 ≤ usdToLamports u r := by
  have hq : (0 : ℚ) < u / r * 1000000000 := by positivity
  have hc : (1 : ℤ) ≤ ⌈u / r * 1000000000⌉ := by
    have := Int.ceil_pos.mpr hq
    omega
  refine ⟨?_, ?_⟩
  · show max 1 (⌈u / r * 1000000000⌉ : ℤ) = ⌈u / r * 1000000000⌉
    exact max_eq_right hc
  · show (1 : ℤ) ≤ max 1 ⌈u / r * 1000000000⌉
    exact le_max_left 1 _

/-- Witness for C5 at `u = 1`, `r = 2`. -/
theorem usdToLamports_ceil_ge_one_witness :
    (0 : ℚ) < 1 ∧ (0 : ℚ) < 2
    ∧ (usdToLamports 1 2 = ⌈(1 : ℚ) / 2 * 1000000000⌉ ∧ 1 ≤ usdToLamports 1 2) :=
  ⟨by norm_num, by norm_num,
    usdToLamports_ceil_ge_one 1 2 (by norm_num) (by norm_num)⟩

/-- C3: once the settlement engine holds a confirmed, errorless transaction,
it returns `Verified` — `paidAmount` being the computed qualifying sum and
`payer` being `accountKeys[0]`, the transaction's first signer — if and only
if `paid ≥ requiredAmount`, and otherwise rejects with reason exactly
`"insufficient payment: paid=<paid> require=<required>"`.  Instantiating the
second conjunct at `paid = required - 1` gives the claimed rejection and the
iff at `paid = required` gives the claimed acceptance. -/
theorem settle_amount_check (env : Chain) (blob : String) (req : Nat)
    (t sig : String) (tx : ParsedTransaction)
    (hne : (env.decodeBase64 blob).length ≠ 0)
    (hsig : (match env.sendRaw (env.decodeBase64 blob) with
      | some s => some s
      | none => env.deserializeFirstSig (env.decodeBase64 blob)) = some sig)
    (hl : env.ledger sig = some tx) (he : tx.err = false) :
    (settleAndVerifyPayment env blob req t
        = .ok sig tx.accountKeys.head? (paidSum tx.instructions t)
      ↔ req ≤ paidSum tx.instructions t)
    ∧ (paidSum tx.instructions t < req →
        settleAndVerifyPayment env blob req t
          = .fail ("insufficient payment: paid="
              ++ toString (paidSum tx.instructions t)
              ++ " require=" ++ toString req)) := by
  rw [settle_obtains_sig env blob req t sig hne hsig]
  unfold confirmAndCheck
  rw [hl]
  simp only [he, Bool.false_eq_true, if_false]
  by_cases hp : paidSum tx.instructions t < req
  · rw [if_pos hp]
    refine ⟨⟨fun h => by simp at h, fun h => absurd h (by omega)⟩, fun _ => rfl⟩
  · rw [if_neg hp]
    refine ⟨⟨fun _ => by omega, fun _ => rfl⟩, fun h => absurd h hp⟩

/-- Witness for C3 on `chainPaid`: the transfer of exactly the required
1 000 000 lamports verifies. -/
theorem settle_amount_check_witness :
    ((chainPaid.decodeBase64 "BLOB").length ≠ 0)
    ∧ ((match chainPaid.sendRaw (chainPaid.decodeBase64 "BLOB") with
        | some s => some s
        | none => chainPaid.deserializeFirstSig (chainPaid.decodeBase64 "BLOB"))
        = some "SIG")
    ∧ (chainPaid.ledger "SIG" = some txPaid)
    ∧ (txPaid.err = false)
    ∧ (settleAndVerifyPayment chainPaid "BLOB" 1000000 "TREAS"
          = .ok "SIG" txPaid.accountKeys.head? (paidSum txPaid.instructions "TREAS")
        ↔ 1000000 ≤ paidSum txPaid.instructions "TREAS") :=
  ⟨by decide, by decide, by decide, rfl,
    (settle_amount_check chainPaid "BLOB" 1000000 "TREAS" "SIG" txPaid
      (by decide) (by decide) (by decide) rfl).1⟩

/-- C6: for a non-empty blob, if ledger submission throws but local
deserialization recovers the first signature, the engine proceeds on that
signature exactly as the reference form does (`confirmAndCheck`); and the
engine fails with `"could not determine tx signature"` precisely when
neither submission nor local deserialization yields a reference. -/
theorem settle_submission_recovery (env : Chain) (blob : String) (req : Nat)
    (t : String) (hne : (env.decodeBase64 blob).length ≠ 0) :
    (∀ sig, env.sendRaw (env.decodeBase64 blob) = none →
        env.deserializeFirstSig (env.decodeBase64 blob) = some sig →
        settleAndVerifyPayment env blob req t = confirmAndCheck env sig req t)
    ∧ (settleAndVerifyPayment env blob req t
          = .fail "could not determine tx signature"
        ↔ env.sendRaw (env.decodeBase64 blob) = none
          ∧ env.deserializeFirstSig (env.decodeBase64 blob) = none) := by
  constructor
  · intro sig hsend hdeser
    exact settle_obtains_sig env blob req t sig hne (by simp [hsend, hdeser])
  · constructor
    · intro h
      cases hsend : env.sendRaw (env.decodeBase64 blob) with
      | some s =>
        exfalso
        rw [settle_obtains_sig env blob req t s hne (by simp [hsend])] at h
        exact confirmAndCheck_reason_shapes env s req t h
      | none =>
        cases hdeser : env.deserializeFirstSig (env.decodeBase64 blob) with
        | some s =>
          exfalso
          rw [settle_obtains_sig env blob req t s hne
            (by simp [hsend, hdeser])] at h
          exact confirmAndCheck_reason_shapes env s req t h
        | none => exact ⟨rfl, rfl⟩
    · rintro ⟨hsend, hdeser⟩
      exact settle_no_sig env blob req t hne hsend hdeser

/-- Witness for C6 on `chainEmpty`, where neither path yields a reference. -/
theorem settle_submission_recovery_witness :
    ((chainEmpty.decodeBase64 "BLOB").length ≠ 0)
    ∧ (settleAndVerifyPayment chainEmpty "BLOB" 5 "TREAS"
          = .fail "could not determine tx signature"
        ↔ chainEmpty.sendRaw (chainEmpty.decodeBase64 "BLOB") = none
          ∧ chainEmpty.deserializeFirstSig (chainEmpty.decodeBase64 "BLOB")
              = none) :=
  ⟨by decide,
    (settle_submission_recovery chainEmpty "BLOB" 5 "TREAS" (by decide)).2⟩

/-- C7: reference-form verification fetches the transaction at confirmed
commitment; a missing transaction yields the retriable not-found failure, a
found transaction whose ledger reports an execution error yields the
transaction-failed failure, and a `fail` result is never an `ok`/`Verified`
one.  Stated both for the settlement engine's confirm step
(`confirmAndCheck`) and for the signature-reference verifier
(`verifySolPayment`). -/
theorem reference_fetch_failures (env : Chain) (sig t : String) (req : Nat) :
    ((env.ledger sig = none →
        confirmAndCheck env sig req t
          = .fail "transaction not found/confirmed yet")
      ∧ (∀ tx, env.ledger sig = some tx → tx.err = true →
        confirmAndCheck env sig req t = .fail "transaction failed"))
    ∧ (jsTrim sig ≠ "" → env.validPubkey t = true →
        (env.ledger (jsTrim sig) = none →
          verifySolPayment env t sig req = .fail "transaction not found (yet)")
        ∧ (∀ tx, env.ledger (jsTrim sig) = some tx → tx.err = true →
          verifySolPayment env t sig req = .fail "transaction failed"))
    ∧ (∀ r a b c, VerifyResult.fail r ≠ VerifyResult.ok a b c)
    ∧ (∀ r a b c, PaymentCheckResult.fail r ≠ PaymentCheckResult.ok a b c) := by
  refine ⟨⟨?_, ?_⟩, ?_, ?_, ?_⟩
  · intro hl
    unfold confirmAndCheck
    rw [hl]
  · intro tx hl he
    unfold confirmAndCheck
    rw [hl]
    simp [he]
  · intro hs hv
    constructor
    · intro hl
      unfold verifySolPayment
      simp only [hs, if_false, hv, Bool.not_true, Bool.false_eq_true, hl]
    · intro tx hl he
      unfold verifySolPayment
      simp only [hs, if_false, hv, Bool.not_true, Bool.false_eq_true, hl]
      simp [he]
  · intro r a b c h
    cases h
  · intro r a b c h
    cases h

/-- Witness for C7 on `chainEmpty`, where no transaction is found. -/
theorem reference_fetch_failures_witness :
    jsTrim "SIG" ≠ ""
    ∧ chainEmpty.validPubkey "TREAS" = true
    ∧ ((chainEmpty.ledger (jsTrim "SIG") = none →
          verifySolPayment chainEmpty "TREAS" "SIG" 7
            = .fail "transaction not found (yet)")
      ∧ (∀ tx, chainEmpty.ledger (jsTrim "SIG") = some tx →
          tx.err = true →
          verifySolPayment chainEmpty "TREAS" "SIG" 7
            = .fail "transaction failed")) :=
  ⟨by decide, rfl,
    (reference_fetch_failures chainEmpty "SIG" "TREAS" 7).2.1
      (by decide) rfl⟩

/-- Two invocations of `verifySolPayment` with identical arguments and the
same ledger state, as a pair. -/
def verifyTwice (env : Chain) (t s : String) (req : Nat) :
    PaymentCheckResult × PaymentCheckResult :=
  (verifySolPayment env t s req, verifySolPayment env t s req)

/-- C8: verification is idempotent and deterministic: against the same
ledger state, re-verifying an already-confirmed, sufficiently funded
transaction reference yields the same `Verified`/`ok` result both times. -/
theorem verify_idempotent (env : Chain) (t s : String) (req : Nat)
    (tx : ParsedTransaction)
    (hs : jsTrim s ≠ "") (hv : env.validPubkey t = true)
    (hl : env.ledger (jsTrim s) = some tx) (he : tx.err = false)
    (hp : req ≤ verifyPaidSum tx.instructions (env.toBase58 t)) :
    (verifyTwice env t s req).1
        = .ok (jsTrim s) (verifyPaidSum tx.instructions (env.toBase58 t))
            (env.toBase58 t)
    ∧ (verifyTwice env t s req).2 = (verifyTwice env t s req).1 := by
  constructor
  · show verifySolPayment env t s req = _
    unfold verifySolPayment
    simp only [hs, if_false, hv, Bool.not_true, Bool.false_eq_true, hl]
    simp only [he, Bool.false_eq_true, if_false]
    rw [if_neg (by omega)]
  · rfl

/-- Witness for C8 on `chainPaid` at the confirmed reference `"SIG"`. -/
theorem verify_idempotent_witness :
    jsTrim "SIG" ≠ ""
    ∧ chainPaid.validPubkey "TREAS" = true
    ∧ chainPaid.ledger (jsTrim "SIG") = some txPaid
    ∧ txPaid.err = false
    ∧ 1000000 ≤ verifyPaidSum txPaid.instructions (chainPaid.toBase58 "TREAS")
    ∧ ((verifyTwice chainPaid "TREAS" "SIG" 1000000).1
        = .ok (jsTrim "SIG")
            (verifyPaidSum txPaid.instructions (chainPaid.toBase58 "TREAS"))
            (chainPaid.toBase58 "TREAS")
      ∧ (verifyTwice chainPaid "TREAS" "SIG" 1000000).2
          = (verifyTwice chainPaid "TREAS" "SIG" 1000000).1) :=
  ⟨by decide, rfl, by decide, rfl, by decide,
    verify_idempotent chainPaid "TREAS" "SIG" 1000000 txPaid
      (by decide) rfl (by decide) rfl (by decide)⟩

/-- C10 (amended): the structured-proof extractor accepts the payload under
either header name; `"X-PAYMENT"` is read in preference whenever its value
is non-empty (the JavaScript `||` chain treats an empty header value as
missing, falling through to `"PAYMENT-SIGNATURE"`); with `"X-PAYMENT"`
absent, a `"PAYMENT-SIGNATURE"` value carrying a valid payload succeeds with
the embedded transaction blob (a valid payload is necessarily a non-empty
header value, since decoding the empty string throws); and with neither
header present the extractor fails with `"missing X-PAYMENT header"`. -/
theorem extract_header_priority (pp : String → PayloadParse) (h : ReqHeaders) :
    (∀ v tx, h.xPayment = none → h.paymentSignature = some v → v ≠ "" →
        pp v = .valid tx → extractPaymentFromHeaders pp h = .ok tx)
    ∧ (∀ v, h.xPayment = some v → v ≠ "" →
        extractPaymentFromHeaders pp h = parseRaw pp v)
    ∧ (h.xPayment = none → h.paymentSignature = none →
        extractPaymentFromHeaders pp h = .fail "missing X-PAYMENT header") := by
  refine ⟨?_, ?_, ?_⟩
  · intro v tx hx hsig hv hpp
    rw [extract_fallback pp h v hx hsig hv]
    simp [parseRaw, hpp]
  · intro v hx hv
    exact extract_primary pp h v hx hv
  · intro hx hs
    exact extract_missing pp h hx hs

/-- Payload-parser fixture: only `"GOODSIG"` is a valid payload, embedding
the blob `"TXBLOB"`. -/
def ppSig : String → PayloadParse :=
  fun s => if s = "GOODSIG" then .valid "TXBLOB" else .invalid

/-- Headers with only the fallback structured header set. -/
def hdrsFallbackOnly : ReqHeaders := ⟨none, none, some "GOODSIG"⟩

/-- Witness for C10 on `hdrsFallbackOnly`. -/
theorem extract_header_priority_witness :
    hdrsFallbackOnly.xPayment = none
    ∧ hdrsFallbackOnly.paymentSignature = some "GOODSIG"
    ∧ ("GOODSIG" : String) ≠ ""
    ∧ ppSig "GOODSIG" = .valid "TXBLOB"
    ∧ extractPaymentFromHeaders ppSig hdrsFallbackOnly = .ok "TXBLOB" :=
  ⟨rfl, rfl, by decide, by decide,
    (extract_header_priority ppSig hdrsFallbackOnly).1 "GOODSIG" "TXBLOB"
      rfl rfl (by decide) (by decide)⟩

/-- Headers carrying an empty-valued `X-PAYMENT` alongside a valid
`PAYMENT-SIGNATURE`. -/
def hdrsEmptyPrimary : ReqHeaders := ⟨none, some "", some "GOODSIG"⟩

/-- C10 counterexample: both structured headers are present, yet extraction
succeeds with the blob embedded under `PAYMENT-SIGNATURE` — the empty
`X-PAYMENT` value is skipped by the `||` chain, and reading `X-PAYMENT`
could not have produced this result. -/
theorem extract_empty_primary_counterexample :
    hdrsEmptyPrimary.xPayment = some ""
    ∧ hdrsEmptyPrimary.paymentSignature = some "GOODSIG"
    ∧ extractPaymentFromHeaders ppSig hdrsEmptyPrimary = .ok "TXBLOB"
    ∧ parseRaw ppSig "" ≠ .ok "TXBLOB" :=
  ⟨rfl, rfl, by decide, by decide⟩

/-! ## Branch lemmas for the two protected handlers -/

theorem signalsDaily_ref (cfg : ServerCfg) (env : Chain)
    (pp : String → PayloadParse) (h : ReqHeaders) (u : String) (r : ℚ)
    (hb : cfg.bypass = false) (ht : cfg.treasury ≠ "")
    (hr : cfg.solUsd? = some r)
    (hp : jsTrim (jsOrStr h.xPaymentTx "") ≠ "") :
    signalsDaily cfg env pp h u
      = match verifySolPayment env cfg.treasury
          (jsTrim (jsOrStr h.xPaymentTx ""))
          ((usdToLamports cfg.priceUsd r).toNat) with
        | .fail reason =>
            .paymentRequired (create402Body (acceptsDaily cfg u r) (some reason))
        | .ok sig paid _ => .paidOk sig paid none (some "txSig") := by
  unfold signalsDaily acceptsDaily
  rw [hb, hr]
  simp only [Bool.false_eq_true, if_false, ht, ite_false, hp, ite_true,
    ne_eq, not_false_eq_true]

theorem signalsDaily_extract_fail (cfg : ServerCfg) (env : Chain)
    (pp : String → PayloadParse) (h : ReqHeaders) (u : String) (r : ℚ)
    (reason : String)
    (hb : cfg.bypass = false) (ht : cfg.treasury ≠ "")
    (hr : cfg.solUsd? = some r)
    (hp : jsTrim (jsOrStr h.xPaymentTx "") = "")
    (he : extractPaymentFromHeaders pp h = .fail reason) :
    signalsDaily cfg env pp h u
      = .paymentRequired (create402Body (acceptsDaily cfg u r) none) := by
  unfold signalsDaily acceptsDaily
  rw [hb, hr]
  simp only [Bool.false_eq_true, if_false, ht, ite_false, hp, ne_eq,
    not_true_eq_false, ite_false, he]

theorem signalsDaily_structured (cfg : ServerCfg) (env : Chain)
    (pp : String → PayloadParse) (h : ReqHeaders) (u : String) (r : ℚ)
    (tx : String)
    (hb : cfg.bypass = false) (ht : cfg.treasury ≠ "")
    (hr : cfg.solUsd? = some r)
    (hp : jsTrim (jsOrStr h.xPaymentTx "") = "")
    (he : extractPaymentFromHeaders pp h = .ok tx) :
    signalsDaily cfg env pp h u
      = match settleAndVerifyPayment env tx
          ((usdToLamports cfg.priceUsd r).toNat) cfg.treasury with
        | .fail reason =>
            .paymentRequired (create402Body (acceptsDaily cfg u r) (some reason))
        | .ok sig payer paid => .paidOk sig paid payer none := by
  unfold signalsDaily acceptsDaily
  rw [hb, hr]
  simp only [Bool.false_eq_true, if_false, ht, ite_false, hp, ne_eq,
    not_true_eq_false, ite_false, he]

theorem signalsTop_ref (cfg : ServerCfg) (env : Chain)
    (pp : String → PayloadParse) (h : ReqHeaders) (u : String) (r : ℚ)
    (hb : cfg.bypass = false) (ht : cfg.treasury ≠ "")
    (hr : cfg.solUsd? = some r)
    (hp : jsTrim (jsOrStr h.xPaymentTx "") ≠ "") :
    signalsPolymarketTop cfg env pp h u
      = match verifySolPayment env cfg.treasury
          (jsTrim (jsOrStr h.xPaymentTx ""))
          ((usdToLamports cfg.priceUsd r).toNat) with
        | .fail reason =>
            .paymentRequired (create402Body (acceptsTop cfg u r) (some reason))
        | .ok _ _ _ => .okSignals (!cfg.bypass) := by
  unfold signalsPolymarketTop acceptsTop
  rw [hb, hr]
  simp only [Bool.not_false, Bool.false_eq_true, if_false, ht, ite_false,
    hp, ite_true, ne_eq, not_false_eq_true, ite_true]

theorem signalsTop_extract_fail (cfg : ServerCfg) (env : Chain)
    (pp : String → PayloadParse) (h : ReqHeaders) (u : String) (r : ℚ)
    (reason : String)
    (hb : cfg.bypass = false) (ht : cfg.treasury ≠ "")
    (hr : cfg.solUsd? = some r)
    (hp : jsTrim (jsOrStr h.xPaymentTx "") = "")
    (he : extractPaymentFromHeaders pp h = .fail reason) :
    signalsPolymarketTop cfg env pp h u
      = .paymentRequired (create402Body (acceptsTop cfg u r) none) := by
  unfold signalsPolymarketTop acceptsTop
  rw [hb, hr]
  simp only [Bool.not_false, Bool.false_eq_true, if_false, ht, ite_false,
    hp, ne_eq, not_true_eq_false, ite_false, ite_true, he]

theorem signalsTop_structured (cfg : ServerCfg) (env : Chain)
    (pp : String → PayloadParse) (h : ReqHeaders) (u : String) (r : ℚ)
    (tx : String)
    (hb : cfg.bypass = false) (ht : cfg.treasury ≠ "")
    (hr : cfg.solUsd? = some r)
    (hp : jsTrim (jsOrStr h.xPaymentTx "") = "")
    (he : extractPaymentFromHeaders pp h = .ok tx) :
    signalsPolymarketTop cfg env pp h u
      = match settleAndVerifyPayment env tx
          ((usdToLamports cfg.priceUsd r).toNat) cfg.treasury with
        | .fail reason =>
            .paymentRequired (create402Body (acceptsTop cfg u r) (some reason))
        | .ok _ _ _ => .okSignals (!cfg.bypass) := by
  unfold signalsPolymarketTop acceptsTop
  rw [hb, hr]
  simp only [Bool.not_false, Bool.false_eq_true, if_false, ht, ite_false,
    hp, ne_eq, not_true_eq_false, ite_false, ite_true, he]

/-- C1 (amended): with payments enforced (no bypass), a configured treasury
and an available price, every verification failure path of the two protected
endpoints re-issues a 402 whose body carries a freshly built quote
(`accepts = [quote]`) and is never a 200: a failing reference-path
verification and a failing settlement annotate the quote with the failure
reason, while a malformed (or missing) structured proof re-issues the fresh
quote with the default `"Payment required"` error instead of the extraction
failure reason. -/
theorem failure_requotes_402 (cfg : ServerCfg) (env : Chain)
    (pp : String → PayloadParse) (h : ReqHeaders) (u : String) (r : ℚ)
    (hb : cfg.bypass = false) (ht : cfg.treasury ≠ "")
    (hr : cfg.solUsd? = some r) :
    (∀ reason, jsTrim (jsOrStr h.xPaymentTx "") ≠ "" →
        verifySolPayment env cfg.treasury (jsTrim (jsOrStr h.xPaymentTx ""))
            ((usdToLamports cfg.priceUsd r).toNat) = .fail reason →
        signalsDaily cfg env pp h u
            = .paymentRequired (create402Body (acceptsDaily cfg u r) (some reason))
        ∧ signalsPolymarketTop cfg env pp h u
            = .paymentRequired (create402Body (acceptsTop cfg u r) (some reason)))
    ∧ (∀ tx reason, jsTrim (jsOrStr h.xPaymentTx "") = "" →
        extractPaymentFromHeaders pp h = .ok tx →
        settleAndVerifyPayment env tx ((usdToLamports cfg.priceUsd r).toNat)
            cfg.treasury = .fail reason →
        signalsDaily cfg env pp h u
            = .paymentRequired (create402Body (acceptsDaily cfg u r) (some reason))
        ∧ signalsPolymarketTop cfg env pp h u
            = .paymentRequired (create402Body (acceptsTop cfg u r) (some reason)))
    ∧ (∀ reason, jsTrim (jsOrStr h.xPaymentTx "") = "" →
        extractPaymentFromHeaders pp h = .fail reason →
        signalsDaily cfg env pp h u
            = .paymentRequired (create402Body (acceptsDaily cfg u r) none)
        ∧ signalsPolymarketTop cfg env pp h u
            = .paymentRequired (create402Body (acceptsTop cfg u r) none))
    ∧ (∀ b, (DailyResponse.paymentRequired b).status = 402
        ∧ (TopResponse.paymentRequired b).status = 402
        ∧ (DailyResponse.paymentRequired b).status ≠ 200
        ∧ (TopResponse.paymentRequired b).status ≠ 200)
    ∧ (∀ a re, (create402Body a (some re)).error = re
        ∧ (create402Body a none).error = "Payment required"
        ∧ (create402Body a (some re)).accepts = [a]
        ∧ (create402Body a none).accepts = [a]) := by
  refine ⟨?_, ?_, ?_, ?_, ?_⟩
  · intro reason hp hv
    constructor
    · rw [signalsDaily_ref cfg env pp h u r hb ht hr hp, hv]
    · rw [signalsTop_ref cfg env pp h u r hb ht hr hp, hv]
  · intro tx reason hp he hs
    constructor
    · rw [signalsDaily_structured cfg env pp h u r tx hb ht hr hp he, hs]
    · rw [signalsTop_structured cfg env pp h u r tx hb ht hr hp he, hs]
  · intro reason hp he
    exact ⟨signalsDaily_extract_fail cfg env pp h u r reason hb ht hr hp he,
      signalsTop_extract_fail cfg env pp h u r reason hb ht hr hp he⟩
  · intro b
    refine ⟨rfl, rfl, ?_, ?_⟩ <;>
      · simp only [DailyResponse.status, TopResponse.status]
        omega
  · intro a re
    exact ⟨rfl, rfl, rfl, rfl⟩

/-- A paid-mode configuration: bypass off, treasury `"TREAS"`, one-dollar
price, SOL at one dollar (so the required amount is 10^9 lamports). -/
def cfgPaid : ServerCfg := ⟨false, "TREAS", 1, some 1, "solana"⟩

/-- Payload parser on which every header value is schema-invalid. -/
def ppInvalid : String → PayloadParse := fun _ => .invalid

/-- Headers carrying only a malformed structured proof. -/
def hdrsMalformed : ReqHeaders := ⟨none, some "BADPAY", none⟩

/-- Witness for C1: the malformed-proof requote on both endpoints. -/
theorem failure_requotes_402_witness :
    cfgPaid.bypass = false
    ∧ cfgPaid.treasury ≠ ""
    ∧ cfgPaid.solUsd? = some 1
    ∧ jsTrim (jsOrStr hdrsMalformed.xPaymentTx "") = ""
    ∧ extractPaymentFromHeaders ppInvalid hdrsMalformed
        = .fail "invalid payment payload"
    ∧ (signalsDaily cfgPaid chainEmpty ppInvalid hdrsMalformed "u"
          = .paymentRequired (create402Body (acceptsDaily cfgPaid "u" 1) none)
      ∧ signalsPolymarketTop cfgPaid chainEmpty ppInvalid hdrsMalformed "u"
          = .paymentRequired (create402Body (acceptsTop cfgPaid "u" 1) none)) :=
  ⟨rfl, by decide, rfl, by decide, by decide,
    (failure_requotes_402 cfgPaid chainEmpty ppInvalid hdrsMalformed "u" 1
        rfl (by decide) rfl).2.2.1
      "invalid payment payload" (by decide) (by decide)⟩

/-- C1 counterexample: a request whose structured proof is malformed is
re-quoted with the generic `"Payment required"` error — the 402 body is not
annotated with the extraction failure reason, contradicting the claim that
every failure outcome (including `MalformedProof`) annotates the quote with
its reason. -/
theorem malformed_requote_unannotated_counterexample :
    extractPaymentFromHeaders ppInvalid hdrsMalformed
        = .fail "invalid payment payload"
    ∧ (signalsDaily cfgPaid chainEmpty ppInvalid hdrsMalformed "u").status = 402
    ∧ (signalsDaily cfgPaid chainEmpty ppInvalid hdrsMalformed "u").errorField
        = some "Payment required"
    ∧ ("Payment required" : String) ≠ "invalid payment payload" :=
  ⟨by decide, by decide, by decide, by decide⟩

/-- C2 (amended): the plain reference header takes precedence — whenever
`X-Payment-Tx` carries a non-blank value, the `/signals/daily` response is
determined by reference verification alone, independent of the structured
header fields and of the payload parser; the structured header is consulted
only when the reference header is absent or blank, and then a present,
non-empty but malformed `X-PAYMENT` value yields a 402 quote (the
`MalformedProof` path) rather than a grant, with no later reference
consultation left to fall back to. -/
theorem reference_header_precedence (cfg : ServerCfg) (env : Chain)
    (u : String) (r : ℚ) (hb : cfg.bypass = false) (ht : cfg.treasury ≠ "")
    (hr : cfg.solUsd? = some r) :
    (∀ t pp1 pp2 xp1 xp2 ps1 ps2, jsTrim (jsOrStr t "") ≠ "" →
        signalsDaily cfg env pp1 ⟨t, xp1, ps1⟩ u
          = signalsDaily cfg env pp2 ⟨t, xp2, ps2⟩ u)
    ∧ (∀ (h : ReqHeaders) pp v, jsTrim (jsOrStr h.xPaymentTx "") = "" →
        h.xPayment = some v → v ≠ "" → (∀ tx, parseRaw pp v ≠ .ok tx) →
        signalsDaily cfg env pp h u
            = .paymentRequired (create402Body (acceptsDaily cfg u r) none)
          ∧ (signalsDaily cfg env pp h u).status = 402) := by
  constructor
  · intro t pp1 pp2 xp1 xp2 ps1 ps2 hp
    rw [signalsDaily_ref cfg env pp1 ⟨t, xp1, ps1⟩ u r hb ht hr hp,
      signalsDaily_ref cfg env pp2 ⟨t, xp2, ps2⟩ u r hb ht hr hp]
  · intro h pp v hp hx hv hmal
    have hepr : extractPaymentFromHeaders pp h = parseRaw pp v :=
      extract_primary pp h v hx hv
    have hfail : ∃ reason, extractPaymentFromHeaders pp h = .fail reason := by
      rw [hepr]
      cases hcase : parseRaw pp v with
      | ok tx => exact absurd hcase (hmal tx)
      | fail reason => exact ⟨reason, rfl⟩
    obtain ⟨reason, hfail⟩ := hfail
    have hd := signalsDaily_extract_fail cfg env pp h u r reason hb ht hr hp hfail
    exact ⟨hd, by rw [hd]; rfl⟩

/-- Payload parser on which only `"GOODPAY"` is valid, embedding `"TXBLOB"`. -/
def ppGood : String → PayloadParse :=
  fun s => if s = "GOODPAY" then .valid "TXBLOB" else .invalid

/-- A confirmed transaction paying the full 10^9 lamports to `"TREAS"`. -/
def txBig : ParsedTransaction :=
  ⟨false, [⟨"system", "transfer", "TREAS", 1000000000⟩], ["PAYER"]⟩

/-- A chain on which the blob `"TXBLOB"` submits as `"BLOBSIG"` and lands as
`txBig`, while the reference `"REFSIG"` is unknown. -/
def chainBlobOnly : Chain :=
  { ledger := fun s => if s = "BLOBSIG" then some txBig else none
    sendRaw := fun _ => some "BLOBSIG"
    deserializeFirstSig := fun _ => none
    decodeBase64 := fun _ => [1]
    validPubkey := fun _ => true
    toBase58 := fun s => s }

/-- Headers presenting both a structured proof and a reference proof. -/
def hdrsBoth : ReqHeaders := ⟨some "REFSIG", some "GOODPAY", none⟩

/-- Witness for C2: with the reference header present, the response is
unchanged when the structured header and the payload parser change. -/
theorem reference_header_precedence_witness :
    cfgPaid.bypass = false
    ∧ cfgPaid.treasury ≠ ""
    ∧ cfgPaid.solUsd? = some 1
    ∧ jsTrim (jsOrStr (some "REFSIG") "") ≠ ""
    ∧ signalsDaily cfgPaid chainBlobOnly ppGood
        ⟨some "REFSIG", some "GOODPAY", none⟩ "u"
      = signalsDaily cfgPaid chainBlobOnly ppInvalid
        ⟨some "REFSIG", none, none⟩ "u" :=
  ⟨rfl, by decide, rfl, by decide,
    (reference_header_precedence cfgPaid chainBlobOnly "u" 1
        rfl (by decide) rfl).1
      (some "REFSIG") ppGood ppInvalid (some "GOODPAY") none none none
      (by decide)⟩

/-- C2 counterexample: both headers are present, the structured proof is
well-formed and its settlement would verify in full — yet the handler
answers from the reference path (a 402 for the unknown reference), so the
structured header did not take precedence and extraction did not decide the
outcome. -/
theorem structured_precedence_counterexample :
    hdrsBoth.xPaymentTx = some "REFSIG"
    ∧ hdrsBoth.xPayment = some "GOODPAY"
    ∧ extractPaymentFromHeaders ppGood hdrsBoth = .ok "TXBLOB"
    ∧ settleAndVerifyPayment chainBlobOnly "TXBLOB" 1000000000 "TREAS"
        = .ok "BLOBSIG" (some "PAYER") 1000000000
    ∧ signalsDaily cfgPaid chainBlobOnly ppGood hdrsBoth "u"
        = .paymentRequired (create402Body (acceptsDaily cfgPaid "u" 1)
            (some "transaction not found (yet)"))
    ∧ (signalsDaily cfgPaid chainBlobOnly ppGood hdrsBoth "u").status = 402 :=
  ⟨rfl, rfl, by decide, by decide, rfl, by decide⟩

/-- C9: with the dev-bypass flag enabled, both protected endpoints answer
200 with an explicit `paid: false` marker, for every chain environment,
payload parser, header map and URL — verification is never consulted and
the response does not depend on the payment headers. -/
theorem bypass_forces_granted (cfg : ServerCfg) (hb : cfg.bypass = true) :
    (∀ env pp h u, signalsDaily cfg env pp h u = .bypassOk)
    ∧ DailyResponse.bypassOk.status = 200
    ∧ DailyResponse.bypassOk.paidFlag = some false
    ∧ (∀ env pp h u, signalsPolymarketTop cfg env pp h u = .okSignals false)
    ∧ (TopResponse.okSignals false).status = 200
    ∧ (TopResponse.okSignals false).paidFlag = some false := by
  refine ⟨?_, rfl, rfl, ?_, rfl, rfl⟩
  · intro env pp h u
    unfold signalsDaily
    simp [hb]
  · intro env pp h u
    unfold signalsPolymarketTop
    simp [hb]

/-- A bypass-mode configuration. -/
def cfgBypass : ServerCfg := ⟨true, "", 1, none, "solana"⟩

/-- Witness for C9: bypass answers 200/`paid: false` even for a request
carrying (malformed) payment headers against an empty chain. -/
theorem bypass_forces_granted_witness :
    cfgBypass.bypass = true
    ∧ signalsDaily cfgBypass chainEmpty ppInvalid hdrsMalformed "u"
        = .bypassOk
    ∧ signalsPolymarketTop cfgBypass chainEmpty ppInvalid hdrsMalformed "u"
        = .okSignals false :=
  ⟨rfl,
    (bypass_forces_granted cfgBypass rfl).1 chainEmpty ppInvalid
      hdrsMalformed "u",
    (bypass_forces_granted cfgBypass rfl).2.2.2.1 chainEmpty ppInvalid
      hdrsMalformed "u"⟩
